import Mathlib

/-!
Verification of the goban SVG generator (`goban.py`).

The geometry engine is embedded shallowly: all real-valued quantities are
modelled as rationals (the Python source only ever combines decimal literals
and integers with `+`, `-`, `*`, `/`, so every produced coordinate is an exact
rational), integer quantities as `Nat`/`Int` (Python 2 `/` on non-negative
ints is floor division, i.e. `Nat` division), and the svgwrite drawing backend
as an ordered list of abstract primitives.  Fallible code (`raise`) is
modelled with `Except String`.
-/

/-- Abstract drawing primitive, standing for the svgwrite calls the source
makes: `drawing.rect`, `drawing.line`, `drawing.circle`.  Fields follow the
keyword arguments at the call sites; `p1` and `p2` are the start and end
points of a line. -/
inductive Primitive where
  | rect (pos : ℚ × ℚ) (size : ℚ × ℚ) (stroke : String) (strokeWidth : ℚ)
      (fill : String) (rx : ℚ) (ry : ℚ)
  | line (p1 : ℚ × ℚ) (p2 : ℚ × ℚ) (stroke : String) (strokeWidth : ℚ)
  | circle (center : ℚ × ℚ) (r : ℚ) (fill : String) (stroke : String)
      (strokeWidth : ℚ)
  deriving DecidableEq, Repr

/-- Whether a primitive is a line. -/
def Primitive.isLine : Primitive → Bool
  | .line _ _ _ _ => true
  | _ => false

/-- Whether a primitive is a circle. -/
def Primitive.isCircle : Primitive → Bool
  | .circle _ _ _ _ _ => true
  | _ => false

/-- A size entry of `sizeOptions` in the source: line counts and star-point
grid coordinates.  Coordinates are `Int`, as in Python, so that the
half-board shift (which can make them negative) is faithful. -/
structure SizeOption where
  lines_horizontal : ℕ
  lines_vertical : ℕ
  star_points : List (ℤ × ℤ)
  deriving DecidableEq, Repr

/-- The `sizeOptions` dictionary of the source (lines 36-40). -/
def sizeOptions : String → Option SizeOption
  | "7" => some ⟨7, 7, [(2, 2), (4, 2), (2, 4), (4, 4)]⟩
  | "9" => some ⟨9, 9, [(2, 2), (6, 2), (4, 4), (2, 6), (6, 6)]⟩
  | "13" => some ⟨13, 13, [(3, 3), (9, 3), (6, 6), (3, 9), (9, 9)]⟩
  | "19" => some ⟨19, 19, [(3, 3), (9, 3), (15, 3), (3, 9), (9, 9), (15, 9), (3, 15), (9, 15), (15, 15)]⟩
  | _ => none

/-- The option dictionary handed to `GoBoard.__init__` after `main` merges
the chosen `sizeOptions` entry with `DefaultOptions` and the command-line
flags (`half_board`, `border`, `rounded_corners`).  The `colors` sub-dict is
flattened into three fields; `unit` and the output filenames play no role in
the geometry and are omitted. -/
structure Options where
  border : Bool
  margin : ℚ
  rounded_corners : ℚ
  spacing_horizontal : ℚ
  spacing_vertical : ℚ
  linewidth : ℚ
  multiple_lines : ℕ
  multiple_lines_spacing : ℚ
  star_diameter : ℚ
  half_board : Bool
  lines_horizontal : ℕ
  lines_vertical : ℕ
  star_points : List (ℤ × ℤ)
  cut_stroke : String
  mark_stroke : String
  background : String
  deriving DecidableEq, Repr

/-- The `DefaultOptions` dictionary of the source (lines 8-34) combined with a size entry
and the `half_board` flag, as `main` does (lines 335-343).  Decimal literals
of the source appear as exact rationals: `23.7 = 237/10`, `0.15 = 3/20`,
`0.25 = 1/4`. -/
def defaultOptions (sz : SizeOption) (half_board : Bool) : Options where
  border := true
  margin := 15
  rounded_corners := 10
  spacing_horizontal := 22
  spacing_vertical := 237 / 10
  linewidth := 3 / 20
  multiple_lines := 2
  multiple_lines_spacing := 1 / 4
  star_diameter := 4
  half_board := half_board
  lines_horizontal := sz.lines_horizontal
  lines_vertical := sz.lines_vertical
  star_points := sz.star_points
  cut_stroke := "black"
  mark_stroke := "red"
  background := "white"

/-- The state of a constructed `GoBoard` object: the option fields copied by
`self.__dict__.update(opt)` (with `lines_vertical` possibly halved) plus the
derived `width` and `height`. -/
structure GoBoard where
  border : Bool
  margin : ℚ
  rounded_corners : ℚ
  spacing_horizontal : ℚ
  spacing_vertical : ℚ
  linewidth : ℚ
  multiple_lines : ℕ
  multiple_lines_spacing : ℚ
  star_diameter : ℚ
  half_board : Bool
  lines_horizontal : ℕ
  lines_vertical : ℕ
  star_points : List (ℤ × ℤ)
  cut_stroke : String
  mark_stroke : String
  background : String
  width : ℚ
  height : ℚ
  deriving DecidableEq, Repr

/-- Embedding of `GoBoard.__init__` (source lines 44-93).  The margin-versus-rounded-corners
check only issues a non-fatal warning and changes no state, so it does not
appear here.  For a half board with an even number of vertical lines the
constructor raises; otherwise `lines_vertical` is halved as
`int((lines_vertical + 1) / 2)` (Python 2 floor division, `Nat` division
here) and the height gets a single margin; a full board keeps its line count
and gets a margin at top and bottom. -/
def GoBoard.init (opt : Options) : Except String GoBoard :=
  let width : ℚ := ((opt.lines_horizontal : ℚ) - 1) * opt.spacing_horizontal +
    opt.linewidth + opt.margin * 2
  if opt.half_board then
    if opt.lines_vertical % 2 = 0 then
      Except.error "The half board option only works with an odd number of vertical lines."
    else
      let lines_vertical := (opt.lines_vertical + 1) / 2
      let height : ℚ := ((lines_vertical : ℚ) - 1) * opt.spacing_vertical +
        opt.linewidth + opt.margin
      Except.ok { opt with
        lines_vertical := lines_vertical, width := width, height := height }
  else
    let height : ℚ := ((opt.lines_vertical : ℚ) - 1) * opt.spacing_vertical +
      opt.linewidth + opt.margin * 2
    Except.ok { opt with width := width, height := height }

/-- Adding a value to component `i` of a coordinate pair: the Python pattern
`p[i] += v` on a two-element list, with `i` either 0 or 1. -/
def addAt (p : ℚ × ℚ) (i : ℕ) (v : ℚ) : ℚ × ℚ :=
  if i = 0 then (p.1 + v, p.2) else (p.1, p.2 + v)

/-- Embedding of `GoBoard.draw_multiple_lines` (source lines 191-212): each logical line
becomes `multiple_lines` parallel strokes; stroke `l` is offset from the
centerline by `(l - multiple_lines / 2.) * multiple_lines_spacing` (float,
i.e. exact rational, division by 2) along axis `dir_count`. -/
def GoBoard.draw_multiple_lines (b : GoBoard) (start stop : ℚ × ℚ)
    (dir_count : ℕ) : List Primitive :=
  (List.range b.multiple_lines).map fun (l : ℕ) =>
    let offset := ((l : ℚ) - (b.multiple_lines : ℚ) / 2) * b.multiple_lines_spacing
    Primitive.line (addAt start dir_count offset) (addAt stop dir_count offset)
      b.mark_stroke b.linewidth

/-- Direction argument of `GoBoard.draw_lines`.  The source dispatches on the
strings "vertical" and "horizontal" and raises on anything else; `draw`
only ever passes these two strings, so the error branch is unreachable and
the argument is an enumeration here. -/
inductive Direction where
  | vertical
  | horizontal
  deriving DecidableEq, Repr

/-- The `for i in range(line_count)` loop of `GoBoard.draw_lines` (source
lines 178-189): draw one logical line (as its `multiple_lines` strokes),
advance `start` by `spacing` along `dir_count`, recurse.  Each inner list is
one logical line. -/
def GoBoard.draw_lines_loop (b : GoBoard) (start : ℚ × ℚ)
    (spacing line_length : ℚ) (dir_line dir_count : ℕ) :
    ℕ → List (List Primitive)
  | 0 => []
  | n + 1 =>
    b.draw_multiple_lines start (addAt start dir_line line_length) dir_count ::
      b.draw_lines_loop (addAt start dir_count spacing) spacing line_length
        dir_line dir_count n

/-- Embedding of `GoBoard.draw_lines` (source lines 149-189), grouped by logical line:
the result is the list of logical lines, each being the list of its stroke
primitives. -/
def GoBoard.draw_lines (b : GoBoard) (start : ℚ × ℚ) (direction : Direction) :
    List (List Primitive) :=
  match direction with
  | .vertical =>
    b.draw_lines_loop start b.spacing_vertical
      (b.spacing_horizontal * ((b.lines_horizontal : ℚ) - 1)) 0 1 b.lines_vertical
  | .horizontal =>
    b.draw_lines_loop start b.spacing_horizontal
      (b.spacing_vertical * ((b.lines_vertical : ℚ) - 1)) 1 0 b.lines_horizontal

/-- Embedding of `GoBoard.draw_starpoint` (source lines 214-226): one star point is
`multiple_lines` concentric circles; circle `l` has diameter
`star_diameter + (l - multiple_lines) * multiple_lines_spacing` (Python int
subtraction, negative here), drawn with radius `diameter / 2`, no fill and
the mark stroke color. -/
def GoBoard.draw_starpoint (b : GoBoard) (pos : ℚ × ℚ) : List Primitive :=
  (List.range b.multiple_lines).map fun (l : ℕ) =>
    let diameter := b.star_diameter +
      ((l : ℚ) - (b.multiple_lines : ℚ)) * b.multiple_lines_spacing
    Primitive.circle pos (diameter / 2) "none" b.mark_stroke b.linewidth

/-- Embedding of `GoBoard.draw_starpoints` (source lines 228-248), grouped by star point:
every configured point has its vertical coordinate reduced by
`lines_vertical - 1` on a half board (note `lines_vertical` has already been
halved by `__init__` at this point) and by 0 on a full board; points whose
shifted coordinate is negative are silently skipped; the rest are drawn at
`(start_x + gx * spacing_horizontal - multiple_lines_spacing / 2,
start_y + gy * spacing_vertical - multiple_lines_spacing / 2)`. -/
def GoBoard.draw_starpoints (b : GoBoard) (start : ℚ × ℚ) :
    List (List Primitive) :=
  let vert_pos_offset : ℤ := if b.half_board then (b.lines_vertical : ℤ) - 1 else 0
  b.star_points.filterMap fun point =>
    let point : ℤ × ℤ := (point.1, point.2 - vert_pos_offset)
    if 0 ≤ point.2 then
      some (b.draw_starpoint
        (start.1 + (point.1 : ℚ) * b.spacing_horizontal - b.multiple_lines_spacing / 2,
         start.2 + (point.2 : ℚ) * b.spacing_vertical - b.multiple_lines_spacing / 2))
    else
      none

/-- The border block of `GoBoard.draw` (source lines 105-136): when `border`
is set, a rounded rectangle (extended upward by `rounded_corners` on a half
board), followed on a half board by the straight top cut line from `(0, 0)`
to `(width, 0)`. -/
def GoBoard.borderPrims (b : GoBoard) : List Primitive :=
  if b.border then
    let borderwidth := b.width - b.linewidth
    let borderpos : ℚ × ℚ :=
      if b.half_board then (0, -b.rounded_corners) else (0, 0)
    let borderheight : ℚ :=
      if b.half_board then b.height - b.linewidth + b.rounded_corners
      else b.height - b.linewidth
    let border := Primitive.rect borderpos (borderwidth, borderheight)
      b.cut_stroke b.linewidth b.background b.rounded_corners b.rounded_corners
    if b.half_board then
      [border, Primitive.line (0, 0) (b.width, 0) b.cut_stroke b.linewidth]
    else
      [border]
  else
    []

/-- The grid origin of `GoBoard.draw` (source lines 139-142): `(margin, 0)`
on a half board, `(margin, margin)` on a full board. -/
def GoBoard.gridStart (b : GoBoard) : ℚ × ℚ :=
  if b.half_board then (b.margin, 0) else (b.margin, b.margin)

/-- The logical grid lines emitted by `GoBoard.draw` (source lines 145-146):
first the "vertical" pass, then the "horizontal" pass.  Each element is
one logical line, as the list of its stroke primitives. -/
def GoBoard.gridLines (b : GoBoard) : List (List Primitive) :=
  b.draw_lines b.gridStart .vertical ++ b.draw_lines b.gridStart .horizontal

/-- Embedding of `GoBoard.draw` (source lines 95-147) as the ordered sequence of emitted
primitives: border (with cut line on a half board), then the grid lines,
then the star points.  The svg canvas bookkeeping (size strings, viewBox) is
serializer concern and carries no primitive. -/
def GoBoard.draw (b : GoBoard) : List Primitive :=
  b.borderPrims ++ b.gridLines.flatten ++ (b.draw_starpoints b.gridStart).flatten

/-- The hardcoded calibration sweep of `GoBoard.draw_test` (source lines
268-269): pairs of stroke count and stroke spacing. -/
def testLines : List (ℕ × ℚ) :=
  [(2, 1/10), (2, 1/5), (2, 3/10), (2, 2/5), (2, 1/2),
   (3, 1/10), (3, 1/5), (3, 3/10), (3, 2/5), (3, 1/2)]

/-- Embedding of `GoBoard.draw_test` (source lines 263-307).  The function computes the
canvas (width `10 + 2 * 10`, height `10 * 10 + 2 * 10`), adds the border
rectangle, and then iterates over `testLines`; but the loop body calls
`self.draw_multiple_lines(start, end, multiple_lines, multiple_lines_spacing,
dir_count)` with five positional arguments while `draw_multiple_lines` is
defined with three (`start`, `end`, `dir_count`), so Python raises
`TypeError` on the first iteration: no swatch row is ever emitted and the
partially built drawing is abandoned.  The embedding returns that error for
a non-empty sweep and would return the border alone for an empty one. -/
def GoBoard.draw_test (b : GoBoard) : Except String (List Primitive) :=
  let margin : ℚ := 10
  let line_length : ℚ := 10
  let width := line_length + 2 * margin
  let height := (testLines.length : ℚ) * 10 + margin * 2
  let border := Primitive.rect (0, 0) (width, height) b.cut_stroke b.linewidth
    b.background b.rounded_corners b.rounded_corners
  match testLines with
  | [] => Except.ok [border]
  | _ :: _ =>
    Except.error "TypeError: draw_multiple_lines() takes exactly 4 arguments (6 given)"

/-- The size-13 entry of `sizeOptions`. -/
def size13 : SizeOption := ⟨13, 13, [(3, 3), (9, 3), (6, 6), (3, 9), (9, 9)]⟩

/-- Options for a size-13 full board with all defaults. -/
def opts13full : Options := defaultOptions size13 false

/-- Options for a size-13 half board with all defaults. -/
def opts13half : Options := defaultOptions size13 true

/-- The constructed size-13 full board: `width = 12 * 22 + 0.15 + 30`,
`height = 12 * 23.7 + 0.15 + 30`. -/
def board13full : GoBoard :=
  { border := true, margin := 15, rounded_corners := 10
    spacing_horizontal := 22, spacing_vertical := 237 / 10, linewidth := 3 / 20
    multiple_lines := 2, multiple_lines_spacing := 1 / 4, star_diameter := 4
    half_board := false, lines_horizontal := 13, lines_vertical := 13
    star_points := [(3, 3), (9, 3), (6, 6), (3, 9), (9, 9)]
    cut_stroke := "black", mark_stroke := "red", background := "white"
    width := 5883 / 20, height := 6291 / 20 }

/-- The constructed size-13 half board: `lines_vertical` halved to 7,
`height = 6 * 23.7 + 0.15 + 15`. -/
def board13half : GoBoard :=
  { board13full with half_board := true, lines_vertical := 7, height := 3147 / 20 }

/-!  Helper lemmas about the drawing functions. -/

/-- One logical line always consists of `multiple_lines` stroke primitives. -/
theorem dml_length (b : GoBoard) (s e : ℚ × ℚ) (d : ℕ) :
    (b.draw_multiple_lines s e d).length = b.multiple_lines := by
  simp only [GoBoard.draw_multiple_lines, List.length_map, List.length_range]

/-- Every primitive of a logical line is a line primitive. -/
theorem dml_isLine (b : GoBoard) (s e : ℚ × ℚ) (d : ℕ) :
    ∀ p ∈ b.draw_multiple_lines s e d, p.isLine = true := by
  intro p hp
  simp only [GoBoard.draw_multiple_lines, List.mem_map, List.mem_range] at hp
  obtain ⟨l, -, rfl⟩ := hp
  rfl

/-- A line primitive is not a circle. -/
theorem isLine_not_isCircle (p : Primitive) (h : p.isLine = true) :
    p.isCircle = false := by
  cases p <;> simp_all [Primitive.isLine, Primitive.isCircle]

/-- A circle primitive is not a line. -/
theorem isCircle_not_isLine (p : Primitive) (h : p.isCircle = true) :
    p.isLine = false := by
  cases p <;> simp_all [Primitive.isLine, Primitive.isCircle]

/-- The `draw_lines` loop emits one logical line per iteration. -/
theorem draw_lines_loop_length (b : GoBoard) (sp ll : ℚ) (dl dc : ℕ) :
    ∀ (n : ℕ) (st : ℚ × ℚ),
      (b.draw_lines_loop st sp ll dl dc n).length = n := by
  intro n
  induction n with
  | zero => intro st; rfl
  | succ k ih => intro st; simp [GoBoard.draw_lines_loop, ih]

/-- Every logical line produced by the `draw_lines` loop is a
`draw_multiple_lines` group. -/
theorem draw_lines_loop_mem (b : GoBoard) (sp ll : ℚ) (dl dc : ℕ) :
    ∀ (n : ℕ) (st : ℚ × ℚ), ∀ xs ∈ b.draw_lines_loop st sp ll dl dc n,
      ∃ s e, xs = b.draw_multiple_lines s e dc := by
  intro n
  induction n with
  | zero => intro st xs hx; simp [GoBoard.draw_lines_loop] at hx
  | succ k ih =>
    intro st xs hx
    simp only [GoBoard.draw_lines_loop, List.mem_cons] at hx
    rcases hx with rfl | hx
    · exact ⟨st, addAt st dl ll, rfl⟩
    · exact ih _ xs hx

/-- The function `draw_lines` emits `lines_vertical` logical lines in the vertical pass
and `lines_horizontal` in the horizontal pass. -/
theorem draw_lines_length (b : GoBoard) (st : ℚ × ℚ) :
    (b.draw_lines st .vertical).length = b.lines_vertical ∧
    (b.draw_lines st .horizontal).length = b.lines_horizontal := by
  constructor <;> simp [GoBoard.draw_lines, draw_lines_loop_length]

/-- Every logical line of the grid is a `draw_multiple_lines` group. -/
theorem gridLines_mem (b : GoBoard) :
    ∀ xs ∈ b.gridLines, ∃ s e d, xs = b.draw_multiple_lines s e d := by
  intro xs hx
  simp only [GoBoard.gridLines, List.mem_append] at hx
  rcases hx with hx | hx
  · obtain ⟨s, e, rfl⟩ := draw_lines_loop_mem b _ _ _ _ _ _ xs hx
    exact ⟨s, e, _, rfl⟩
  · obtain ⟨s, e, rfl⟩ := draw_lines_loop_mem b _ _ _ _ _ _ xs hx
    exact ⟨s, e, _, rfl⟩

/-- The grid consists of `lines_vertical + lines_horizontal` logical lines. -/
theorem gridLines_length (b : GoBoard) :
    b.gridLines.length = b.lines_vertical + b.lines_horizontal := by
  simp [GoBoard.gridLines, (draw_lines_length b _).1, (draw_lines_length b _).2]

/-- Flattening a list of lists of one common length multiplies the length. -/
theorem flatten_const_length {α : Type} (m : ℕ) :
    ∀ (L : List (List α)), (∀ xs ∈ L, xs.length = m) →
      L.flatten.length = L.length * m := by
  intro L
  induction L with
  | nil => intro _; simp
  | cons xs t ih =>
    intro h
    simp only [List.flatten_cons, List.length_append, List.length_cons,
      h xs (by simp), ih (fun ys hy => h ys (by simp [hy]))]
    ring

/-- A `filterMap` by a function that always succeeds is a `map`. -/
theorem filterMap_some_of_forall {α β : Type} (f : α → Option β) (g : α → β) :
    ∀ (l : List α), (∀ a ∈ l, f a = some (g a)) → l.filterMap f = l.map g := by
  intro l
  induction l with
  | nil => intro _; rfl
  | cons a t ih =>
    intro h
    simp [List.filterMap_cons, h a (by simp),
      ih (fun x hx => h x (by simp [hx]))]

/-- One star point always consists of `multiple_lines` circle primitives. -/
theorem starpoint_length (b : GoBoard) (pos : ℚ × ℚ) :
    (b.draw_starpoint pos).length = b.multiple_lines := by
  simp only [GoBoard.draw_starpoint, List.length_map, List.length_range]

/-- Every primitive of a star point is a circle with no fill, the mark
stroke color and the configured linewidth, centered at the point. -/
theorem starpoint_shape (b : GoBoard) (pos : ℚ × ℚ) :
    ∀ p ∈ b.draw_starpoint pos, ∃ r,
      p = Primitive.circle pos r "none" b.mark_stroke b.linewidth := by
  intro p hp
  simp only [GoBoard.draw_starpoint, List.mem_map, List.mem_range] at hp
  obtain ⟨l, -, rfl⟩ := hp
  exact ⟨_, rfl⟩

/-- Every group produced by `draw_starpoints` is a `draw_starpoint`. -/
theorem draw_starpoints_mem (b : GoBoard) (start : ℚ × ℚ) :
    ∀ xs ∈ b.draw_starpoints start, ∃ c, xs = b.draw_starpoint c := by
  intro xs hx
  simp only [GoBoard.draw_starpoints, List.mem_filterMap] at hx
  obtain ⟨a, -, ha⟩ := hx
  by_cases h : (0 : ℤ) ≤ a.2 - (if b.half_board then (b.lines_vertical : ℤ) - 1 else 0)
  · rw [if_pos h] at ha
    exact ⟨_, (Option.some.injEq _ _ ▸ ha).symm⟩
  · rw [if_neg h] at ha
    exact absurd ha (by simp)

/-- No primitive of the border block is a circle. -/
theorem borderPrims_not_isCircle (b : GoBoard) :
    ∀ p ∈ b.borderPrims, p.isCircle = false := by
  intro p hp
  unfold GoBoard.borderPrims at hp
  cases hb : b.border <;> rw [hb] at hp
  · simp at hp
  · cases hh : b.half_board <;> simp only [hh, if_true, if_false] at hp <;>
      simp only [Bool.false_eq_true, if_false, if_true, List.mem_cons,
        List.mem_singleton, List.not_mem_nil, or_false] at hp
    · rw [hp]; rfl
    · rcases hp with rfl | rfl <;> rfl

/-- On a full board the border block is a single rounded rectangle (or
nothing when the border is disabled): in particular it contains no line
primitive, so the cut line is absent. -/
theorem borderPrims_full (b : GoBoard) (hb : b.half_board = false) :
    b.borderPrims = if b.border then
      [Primitive.rect (0, 0) (b.width - b.linewidth, b.height - b.linewidth)
        b.cut_stroke b.linewidth b.background b.rounded_corners b.rounded_corners]
    else [] := by
  unfold GoBoard.borderPrims
  rw [hb]
  cases hbr : b.border <;> simp

/-- On a full board no primitive of the border block is a line. -/
theorem borderPrims_full_not_isLine (b : GoBoard) (hb : b.half_board = false) :
    ∀ p ∈ b.borderPrims, p.isLine = false := by
  intro p hp
  rw [borderPrims_full b hb] at hp
  cases hbr : b.border <;> rw [hbr] at hp
  · simp at hp
  · simp only [if_true, List.mem_singleton] at hp
    rw [hp]; rfl

/-- Every primitive in the flattened grid is a line primitive. -/
theorem gridLines_flatten_isLine (b : GoBoard) :
    ∀ p ∈ b.gridLines.flatten, p.isLine = true := by
  intro p hp
  obtain ⟨xs, hxs, hpx⟩ := List.mem_flatten.mp hp
  obtain ⟨s, e, d, rfl⟩ := gridLines_mem b xs hxs
  exact dml_isLine b s e d p hpx

/-- Every primitive in the flattened star point output is a circle. -/
theorem starpoints_flatten_isCircle (b : GoBoard) (start : ℚ × ℚ) :
    ∀ p ∈ (b.draw_starpoints start).flatten, p.isCircle = true := by
  intro p hp
  obtain ⟨xs, hxs, hpx⟩ := List.mem_flatten.mp hp
  obtain ⟨c, rfl⟩ := draw_starpoints_mem b start xs hxs
  obtain ⟨r, rfl⟩ := starpoint_shape b c p hpx
  rfl

/-- Each logical grid line consists of `multiple_lines` primitives. -/
theorem gridLines_group_length (b : GoBoard) :
    ∀ xs ∈ b.gridLines, xs.length = b.multiple_lines := by
  intro xs hxs
  obtain ⟨s, e, d, rfl⟩ := gridLines_mem b xs hxs
  exact dml_length b s e d

/-- The flattened grid of any board has
`multiple_lines * (lines_vertical + lines_horizontal)` line primitives. -/
theorem gridLines_flatten_length (b : GoBoard) :
    b.gridLines.flatten.length =
      b.multiple_lines * (b.lines_vertical + b.lines_horizontal) := by
  rw [flatten_const_length b.multiple_lines b.gridLines (gridLines_group_length b),
    gridLines_length b, Nat.mul_comm]

/-- On a full board with all configured star points in the upper-left
quadrant (vertical coordinate non-negative, as in every `sizeOptions`
entry), no star point is filtered out: the output is one `draw_starpoint`
group per configured point, centered at
`(start_x + gx * spacing_horizontal - multiple_lines_spacing / 2,
start_y + gy * spacing_vertical - multiple_lines_spacing / 2)`. -/
theorem draw_starpoints_full (b : GoBoard) (hb : b.half_board = false)
    (start : ℚ × ℚ) (hs : ∀ p ∈ b.star_points, 0 ≤ p.2) :
    b.draw_starpoints start = b.star_points.map fun point =>
      b.draw_starpoint
        (start.1 + (point.1 : ℚ) * b.spacing_horizontal - b.multiple_lines_spacing / 2,
         start.2 + (point.2 : ℚ) * b.spacing_vertical - b.multiple_lines_spacing / 2) := by
  simp only [GoBoard.draw_starpoints, hb, Bool.false_eq_true, if_false, sub_zero]
  refine filterMap_some_of_forall _ _ _ ?_
  intro a ha
  rw [if_pos (hs a ha)]

/-- A list of primitives all satisfying a predicate filters to itself. -/
theorem filter_of_forall (p : Primitive → Bool) :
    ∀ (l : List Primitive), (∀ x ∈ l, p x = true) → l.filter p = l := by
  intro l h
  exact List.filter_eq_self.mpr h

/-- A list of primitives none satisfying a predicate filters to nil. -/
theorem filter_of_forall_not (p : Primitive → Bool) :
    ∀ (l : List Primitive), (∀ x ∈ l, p x = false) → l.filter p = [] := by
  intro l h
  refine List.filter_eq_nil_iff.mpr ?_
  intro a ha
  simp [h a ha]

/-- On a full board, the whole drawing contains exactly
`multiple_lines * (lines_horizontal + lines_vertical)` line primitives:
the grid strokes, and nothing else (no border cut line). -/
theorem draw_filter_isLine_full (b : GoBoard) (hb : b.half_board = false) :
    (b.draw.filter Primitive.isLine).length =
      b.multiple_lines * (b.lines_horizontal + b.lines_vertical) := by
  unfold GoBoard.draw
  rw [List.filter_append, List.filter_append, List.length_append,
    List.length_append,
    filter_of_forall_not _ _ (borderPrims_full_not_isLine b hb),
    filter_of_forall _ _ (gridLines_flatten_isLine b),
    filter_of_forall_not _ _
      (fun x hx => isCircle_not_isLine x (starpoints_flatten_isCircle b _ x hx)),
    gridLines_flatten_length b]
  simp [Nat.add_comm]

/-- On a full board with all configured star points at non-negative
vertical coordinates, the whole drawing contains exactly
`multiple_lines * (number of star points)` circle primitives. -/
theorem draw_filter_isCircle_full (b : GoBoard) (hb : b.half_board = false)
    (hs : ∀ p ∈ b.star_points, 0 ≤ p.2) :
    (b.draw.filter Primitive.isCircle).length =
      b.multiple_lines * b.star_points.length := by
  unfold GoBoard.draw
  rw [List.filter_append, List.filter_append, List.length_append,
    List.length_append,
    filter_of_forall_not _ _ (borderPrims_not_isCircle b),
    filter_of_forall_not _ _
      (fun x hx => isLine_not_isCircle x (gridLines_flatten_isLine b x hx)),
    filter_of_forall _ _ (starpoints_flatten_isCircle b _),
    flatten_const_length b.multiple_lines _
      (fun xs hxs => by
        obtain ⟨c, rfl⟩ := draw_starpoints_mem b _ xs hxs
        exact starpoint_length b c),
    draw_starpoints_full b hb _ hs, List.length_map]
  simp [Nat.mul_comm]

/-- The constructor yields `board13full` on the size-13 full-board defaults. -/
theorem init13full : GoBoard.init opts13full = Except.ok board13full := by
  simp only [GoBoard.init, opts13full, defaultOptions, size13, board13full]
  norm_num

/-- The constructor yields `board13half` on the size-13 half-board defaults. -/
theorem init13half : GoBoard.init opts13half = Except.ok board13half := by
  simp only [GoBoard.init, opts13half, defaultOptions, size13, board13half, board13full]
  norm_num

/-- Claim C2: whenever the constructor succeeds, the computed board width is
`(lines_horizontal - 1) * spacing_horizontal + linewidth + 2 * margin`. -/
theorem board_width_formula (opt : Options) (b : GoBoard)
    (hb : GoBoard.init opt = Except.ok b) :
    b.width = ((opt.lines_horizontal : ℚ) - 1) * opt.spacing_horizontal +
      opt.linewidth + 2 * opt.margin := by
  simp only [GoBoard.init] at hb
  split at hb
  · split at hb
    · exact absurd hb (by simp)
    · injection hb with h
      subst h
      show ((opt.lines_horizontal : ℚ) - 1) * opt.spacing_horizontal +
        opt.linewidth + opt.margin * 2 = _
      ring
  · injection hb with h
    subst h
    show ((opt.lines_horizontal : ℚ) - 1) * opt.spacing_horizontal +
      opt.linewidth + opt.margin * 2 = _
    ring

/-- Witness for C2: the size-13 full board with default spacing 22, margin
15 and linewidth 0.15 has width `12 * 22 + 0.15 + 30 = 294.15`. -/
theorem board_width_formula_witness :
    board13full.width = ((13 : ℚ) - 1) * 22 + 3 / 20 + 2 * 15 ∧
    board13full.width = 294.15 := by
  have h := board_width_formula opts13full board13full init13full
  refine ⟨h, ?_⟩
  rw [h]
  norm_num [opts13full, defaultOptions, size13]

/-- Claim C3: whenever the constructor succeeds on a half board with an odd
vertical line count, the line count is halved to `(lines_vertical + 1) / 2`
(integer division) and the height carries a single margin; on a full board
the height carries two margins. -/
theorem half_board_dimensions (opt : Options) (b : GoBoard)
    (hb : GoBoard.init opt = Except.ok b) :
    (opt.half_board = true → opt.lines_vertical % 2 = 1 →
      b.lines_vertical = (opt.lines_vertical + 1) / 2 ∧
      b.height = ((b.lines_vertical : ℚ) - 1) * opt.spacing_vertical +
        opt.linewidth + opt.margin) ∧
    (opt.half_board = false →
      b.height = ((opt.lines_vertical : ℚ) - 1) * opt.spacing_vertical +
        opt.linewidth + 2 * opt.margin) := by
  simp only [GoBoard.init] at hb
  split at hb
  next hh =>
    split at hb
    · exact absurd hb (by simp)
    · injection hb with h
      subst h
      exact ⟨fun _ _ => ⟨rfl, rfl⟩, fun hf => by rw [hf] at hh; cases hh⟩
  next hh =>
    injection hb with h
    subst h
    refine ⟨fun ht _ => absurd ht hh, fun _ => ?_⟩
    show ((opt.lines_vertical : ℚ) - 1) * opt.spacing_vertical +
      opt.linewidth + opt.margin * 2 = _
    ring

/-- Witness for C3: size 13 half board halves 13 to 7 vertical lines and its
height is `6 * 23.7 + 0.15 + 15 = 157.35`; the full board keeps two margins,
`12 * 23.7 + 0.15 + 30 = 314.55`. -/
theorem half_board_dimensions_witness :
    board13half.lines_vertical = (13 + 1) / 2 ∧
    board13half.height = ((7 : ℚ) - 1) * (237 / 10) + 3 / 20 + 15 ∧
    board13full.height = ((13 : ℚ) - 1) * (237 / 10) + 3 / 20 + 2 * 15 := by
  have hh := half_board_dimensions opts13half board13half init13half
  have hf := half_board_dimensions opts13full board13full init13full
  have h1 := hh.1 rfl (by decide)
  refine ⟨h1.1, ?_, ?_⟩
  · rw [h1.2]
    norm_num [opts13half, defaultOptions, size13, board13half, board13full]
  · rw [hf.2 rfl]
    norm_num [opts13full, defaultOptions, size13]

/-- Claim C4: requesting a half board with an even number of vertical lines
makes the constructor fail; since the drawing functions only operate on a
successfully constructed board, no drawing primitive can be produced. -/
theorem half_board_even_lines_rejected (opt : Options)
    (hh : opt.half_board = true) (he : opt.lines_vertical % 2 = 0) :
    GoBoard.init opt = Except.error
      "The half board option only works with an odd number of vertical lines." := by
  simp [GoBoard.init, hh, he]

/-- Witness for C4: a half board over an even 12-line vertical grid is
rejected. -/
theorem half_board_even_lines_rejected_witness :
    GoBoard.init (defaultOptions ⟨13, 12, []⟩ true) = Except.error
      "The half board option only works with an odd number of vertical lines." :=
  half_board_even_lines_rejected (defaultOptions ⟨13, 12, []⟩ true) rfl (by decide)

/-- Claim C1: for every supported size (7, 9, 13, 19) and every
`multiple_lines >= 1`, the full-board drawing has exactly
`lines_horizontal + lines_vertical` logical grid lines (the elements of
`gridLines`) and exactly `multiple_lines * (lines_horizontal +
lines_vertical)` line primitives; in particular the half-board cut line is
absent. -/
theorem full_board_line_counts (s : String) (hs : s ∈ ["7", "9", "13", "19"])
    (sz : SizeOption) (hsz : sizeOptions s = some sz) (m : ℕ) (hm : 1 ≤ m)
    (b : GoBoard)
    (hb : GoBoard.init { defaultOptions sz false with multiple_lines := m } =
      Except.ok b) :
    b.gridLines.length = sz.lines_horizontal + sz.lines_vertical ∧
    (b.draw.filter Primitive.isLine).length =
      m * (sz.lines_horizontal + sz.lines_vertical) := by
  simp only [GoBoard.init, defaultOptions] at hb
  split at hb
  next hh => exact absurd hh (by simp)
  next hh =>
    injection hb with h
    subst h
    constructor
    · rw [gridLines_length]
      exact Nat.add_comm _ _
    · rw [draw_filter_isLine_full _ rfl]

/-- Witness for C1: the size-13 default full board (`multiple_lines = 2`)
has 26 logical grid lines and 52 line primitives. -/
theorem full_board_line_counts_witness :
    board13full.gridLines.length = 13 + 13 ∧
    (board13full.draw.filter Primitive.isLine).length = 2 * (13 + 13) := by
  refine full_board_line_counts "13" (by simp) size13 rfl 2 (by norm_num)
    board13full ?_
  exact init13full

/-- Claim C5: stroke `l` of a logical line is offset from the centerline by
exactly `(l - multiple_lines / 2) * multiple_lines_spacing` along the
perpendicular axis `dir_count` (at both endpoints); the division by 2 is
exact (rational), so for `multiple_lines = 2` the offsets are `-spacing`
and `0`, not symmetric around zero. -/
theorem multiple_lines_offsets (b : GoBoard) (s e : ℚ × ℚ) (d l : ℕ)
    (hl : l < b.multiple_lines) :
    (b.draw_multiple_lines s e d)[l]? =
      some (Primitive.line
        (addAt s d (((l : ℚ) - (b.multiple_lines : ℚ) / 2) * b.multiple_lines_spacing))
        (addAt e d (((l : ℚ) - (b.multiple_lines : ℚ) / 2) * b.multiple_lines_spacing))
        b.mark_stroke b.linewidth) := by
  unfold GoBoard.draw_multiple_lines
  rw [List.getElem?_map, List.getElem?_range hl]
  rfl

/-- Witness for C5: on the default board (`multiple_lines = 2`,
`multiple_lines_spacing = 0.25`) the two strokes of a logical line from
`(0, 0)` to `(10, 0)` spread along axis 1 sit at offsets `-0.25` and `0.0`
— not at `-0.125` and `+0.125`. -/
theorem multiple_lines_offsets_witness :
    (board13full.draw_multiple_lines (0, 0) (10, 0) 1)[0]? =
      some (Primitive.line (0, -0.25) (10, -0.25) "red" (3 / 20)) ∧
    (board13full.draw_multiple_lines (0, 0) (10, 0) 1)[1]? =
      some (Primitive.line (0, 0) (10, 0) "red" (3 / 20)) := by
  rw [multiple_lines_offsets board13full (0, 0) (10, 0) 1 0 (by decide),
    multiple_lines_offsets board13full (0, 0) (10, 0) 1 1 (by decide)]
  norm_num [addAt, board13full]

/-- Claim C7: a retained star point is exactly `multiple_lines` concentric
circles, circle `l` having radius `(star_diameter +
(l - multiple_lines) * multiple_lines_spacing) / 2`, i.e. diameter
`star_diameter + (l - multiple_lines) * multiple_lines_spacing` — a
centering convention different from the grid-line offset formula, which
uses `l - multiple_lines / 2`. -/
theorem starpoint_diameters (b : GoBoard) (pos : ℚ × ℚ) (l : ℕ)
    (hl : l < b.multiple_lines) :
    (b.draw_starpoint pos).length = b.multiple_lines ∧
    (b.draw_starpoint pos)[l]? = some (Primitive.circle pos
      ((b.star_diameter +
        ((l : ℚ) - (b.multiple_lines : ℚ)) * b.multiple_lines_spacing) / 2)
      "none" b.mark_stroke b.linewidth) := by
  refine ⟨starpoint_length b pos, ?_⟩
  unfold GoBoard.draw_starpoint
  rw [List.getElem?_map, List.getElem?_range hl]
  rfl

/-- Witness for C7: on the default board (`star_diameter = 4`,
`multiple_lines = 2`, spacing `0.25`) a star point at `(100, 100)` is two
circles of diameters `4 + (0 - 2) * 0.25 = 3.5` and `4 + (1 - 2) * 0.25 =
3.75` (radii 1.75 and 1.875). -/
theorem starpoint_diameters_witness :
    (board13full.draw_starpoint (100, 100)).length = 2 ∧
    (board13full.draw_starpoint (100, 100))[0]? =
      some (Primitive.circle (100, 100) (7 / 4) "none" "red" (3 / 20)) ∧
    (board13full.draw_starpoint (100, 100))[1]? =
      some (Primitive.circle (100, 100) (15 / 8) "none" "red" (3 / 20)) := by
  have h0 := starpoint_diameters board13full (100, 100) 0 (by decide)
  have h1 := starpoint_diameters board13full (100, 100) 1 (by decide)
  refine ⟨h0.1, ?_, ?_⟩
  · rw [h0.2]
    norm_num [board13full]
  · rw [h1.2]
    norm_num [board13full]

/-- Claim C6: on a full board every configured star point `(gx, gy)` (all of
which have `gy >= 0`) is drawn centered at `(start_x + gx *
spacing_horizontal - multiple_lines_spacing / 2, start_y + gy *
spacing_vertical - multiple_lines_spacing / 2)`; on the size-13 half board
the vertical shift is `lines_vertical - 1 = 6` and exactly the three points
with shifted coordinate `>= 0` survive — `(3, 3)` shifts to `(3, -3)` and is
silently dropped, `(6, 6)` shifts to `(6, 0)` and is kept, centered at
`(15 + 6 * 22 - 0.125, 0 + 0 - 0.125)`. -/
theorem star_point_centers :
    (∀ (b : GoBoard) (start : ℚ × ℚ), b.half_board = false →
      (∀ p ∈ b.star_points, 0 ≤ p.2) →
      b.draw_starpoints start = b.star_points.map fun point =>
        b.draw_starpoint
          (start.1 + (point.1 : ℚ) * b.spacing_horizontal - b.multiple_lines_spacing / 2,
           start.2 + (point.2 : ℚ) * b.spacing_vertical - b.multiple_lines_spacing / 2)) ∧
    ((board13half.lines_vertical : ℤ) - 1 = 6 ∧
      board13half.draw_starpoints board13half.gridStart =
        [board13half.draw_starpoint (1175 / 8, -1 / 8),
         board13half.draw_starpoint (647 / 8, 2839 / 40),
         board13half.draw_starpoint (1703 / 8, 2839 / 40)]) := by
  refine ⟨fun b start hb hs => draw_starpoints_full b hb start hs, by decide, ?_⟩
  simp only [GoBoard.draw_starpoints, GoBoard.gridStart, board13half, board13full]
  norm_num [List.filterMap_cons]

/-- Witness for C6: on the size-13 default full board no star point is
dropped and the five centers follow the formula. -/
theorem star_point_centers_witness :
    board13full.draw_starpoints board13full.gridStart =
      board13full.star_points.map fun point =>
        board13full.draw_starpoint
          (board13full.gridStart.1 + (point.1 : ℚ) * board13full.spacing_horizontal -
            board13full.multiple_lines_spacing / 2,
           board13full.gridStart.2 + (point.2 : ℚ) * board13full.spacing_vertical -
            board13full.multiple_lines_spacing / 2) :=
  star_point_centers.1 board13full board13full.gridStart rfl (by decide)

/-- Claim C9: on a half board with the border enabled, the drawing starts
with the full rounded border rectangle raised by `rounded_corners`
(position `(0, -rounded_corners)`, height `height - linewidth +
rounded_corners`), immediately followed by the straight cut line from
`(0, 0)` to `(width, 0)`; the rest is the grid and the star points — no
clipping is applied, the rectangle stays whole. -/
theorem half_board_border_cut (b : GoBoard) (hh : b.half_board = true)
    (hb : b.border = true) :
    b.draw = Primitive.rect (0, -b.rounded_corners)
        (b.width - b.linewidth, b.height - b.linewidth + b.rounded_corners)
        b.cut_stroke b.linewidth b.background b.rounded_corners b.rounded_corners ::
      Primitive.line (0, 0) (b.width, 0) b.cut_stroke b.linewidth ::
      (b.gridLines.flatten ++ (b.draw_starpoints b.gridStart).flatten) := by
  unfold GoBoard.draw GoBoard.borderPrims
  rw [hh, hb]
  simp

/-- Witness for C9: the size-13 default half board. -/
theorem half_board_border_cut_witness :
    board13half.draw = Primitive.rect (0, -board13half.rounded_corners)
        (board13half.width - board13half.linewidth,
         board13half.height - board13half.linewidth + board13half.rounded_corners)
        board13half.cut_stroke board13half.linewidth board13half.background
        board13half.rounded_corners board13half.rounded_corners ::
      Primitive.line (0, 0) (board13half.width, 0) board13half.cut_stroke
        board13half.linewidth ::
      (board13half.gridLines.flatten ++
        (board13half.draw_starpoints board13half.gridStart).flatten) :=
  half_board_border_cut board13half rfl rfl

/-- Claim C10: on a full board the vertical star shift is zero, every
configured star point (all at non-negative coordinates) is kept, and the
drawing contains exactly `multiple_lines * (number of star points)` circle
primitives, every one of which has fill `none` and the mark stroke color. -/
theorem full_board_starpoint_circles (b : GoBoard) (hb : b.half_board = false)
    (hs : ∀ p ∈ b.star_points, 0 ≤ p.2) :
    (b.draw.filter Primitive.isCircle).length =
      b.multiple_lines * b.star_points.length ∧
    ∀ pos r fill stroke sw, Primitive.circle pos r fill stroke sw ∈ b.draw →
      fill = "none" ∧ stroke = b.mark_stroke := by
  refine ⟨draw_filter_isCircle_full b hb hs, ?_⟩
  intro pos r fill stroke sw hmem
  unfold GoBoard.draw at hmem
  rcases List.mem_append.mp hmem with hm1 | hm1
  · rcases List.mem_append.mp hm1 with hm2 | hm2
    · have := borderPrims_not_isCircle b _ hm2
      simp [Primitive.isCircle] at this
    · have := isLine_not_isCircle _ (gridLines_flatten_isLine b _ hm2)
      simp [Primitive.isCircle] at this
  · obtain ⟨xs, hxs, hpx⟩ := List.mem_flatten.mp hm1
    obtain ⟨c, rfl⟩ := draw_starpoints_mem b _ xs hxs
    obtain ⟨r', heq⟩ := starpoint_shape b c _ hpx
    injection heq with h1 h2 h3 h4 h5
    exact ⟨h3, h4⟩

/-- Witness for C10: the size-13 default full board draws its five star
points as `2 * 5 = 10` circle primitives. -/
theorem full_board_starpoint_circles_witness :
    (board13full.draw.filter Primitive.isCircle).length = 2 * 5 :=
  (full_board_starpoint_circles board13full rfl (by decide)).1

/-- Claim C8 (refuted by the code): the calibration sheet function
`draw_test` never emits its ten swatch rows — its loop calls
`draw_multiple_lines` with five positional arguments (`start`, `end`,
`multiple_lines`, `multiple_lines_spacing`, `dir_count`) while the method
only accepts three, so every run of `draw_test` raises `TypeError` at the
first of the ten configured rows, whatever the board configuration. -/
theorem draw_test_type_error (b : GoBoard) :
    b.draw_test = Except.error
      "TypeError: draw_multiple_lines() takes exactly 4 arguments (6 given)" := rfl
